import Mathlib

/-!
Shallow embedding of the Streamlit keepalive script of this repository
(`src/unnamed/part_000`, a puppeteer-driven wake/retry coordinator).

The browser driver is abstracted into an environment: each browsing
context is a record saying whether the marker selector matches there,
whether the matched element has a (non-null) bounding box, and whether
it intersects the viewport.  Waits and sleeps have no observable effect
on the modelled state; backoff sleeps are recorded as durations so the
retry schedule is visible in the run trace.
-/

namespace Keepalive

/-- Timing and retry constants of `src/unnamed/part_000` (lines 9-15). -/
def PAGE_LOAD_GRACE_PERIOD_MS : Nat := 5000

def WAKE_BUTTON_POLL_TIMEOUT_MS : Nat := 60000

def WAKE_BUTTON_POLL_INTERVAL_MS : Nat := 1000

def WAKE_MAX_ATTEMPTS : Nat := 3

def WAKE_RETRY_BACKOFF_BASE_MS : Nat := 2000

def WAKE_READY_TIMEOUT_MS : Nat := 120000

/-- A browsing context (the main page or one frame) as the script can
observe it through the driver: its diagnostic label, whether
`ctx.$(WAKE_UP_BUTTON_SELECTOR)` finds the wake control there, and the
geometry the script reads from a found control
(`button.boundingBox()` non-null, `button.isIntersectingViewport()`). -/
structure Ctx where
  label : String
  hasButton : Bool
  hasBox : Bool
  inViewport : Bool
deriving Repr, DecidableEq

/-- A control is actionable exactly when the main script will click it:
found, and with a bounding box or intersecting the viewport
(part_000 lines 114-117: `if (!box && !inViewport) continue`). -/
def actionable (c : Ctx) : Bool :=
  c.hasButton && (c.hasBox || c.inViewport)

/-- One pass of the `for (const { ctx, label } of contexts)` loop inside
`findAndClickWakeButton` (part_000 lines 105-124): return the context
that gets clicked, or `none` if every context is skipped.  A context is
skipped when the selector does not match (`if (button)`) or when the
match has neither bounding box nor viewport intersection (`continue`);
otherwise the control is clicked and the loop breaks. -/
def scanContexts : List Ctx → Option Ctx
  | [] => none
  | c :: rest =>
    if c.hasButton then
      if !c.hasBox && !c.inViewport then scanContexts rest
      else some c
    else scanContexts rest

/-- The polling loop of `findAndClickWakeButton` (part_000 lines
97-129): re-enumerate the contexts each round (`page.frames()` is
recomputed fresh) until a click happens or the poll deadline elapses.
The environment supplies the list of context snapshots seen in the
rounds that fit before the deadline. -/
def findAndClick : List (List Ctx) → Option Ctx
  | [] => none
  | r :: rs =>
    match scanContexts r with
    | some c => some c
    | none => findAndClick rs

/-- JavaScript `String.prototype.includes`, used by the post-click
re-query error handler (part_000 lines 178-181). -/
def strIncludes (s pat : String) : Bool :=
  decide (List.IsInfix pat.toList s.toList)

/-- Raw outcome of the post-click re-query
`lastClickedContext.$(WAKE_UP_BUTTON_SELECTOR)` before its `.catch`
handler runs: the element is found, absent, or the query rejects with
an error message. -/
inductive QueryOutcome where
  | found
  | absent
  | error (msg : String)
deriving Repr, DecidableEq

/-- The re-query together with its `.catch` handler (part_000 lines
175-189): a rejection whose message mentions a destroyed or missing
execution context is converted to `null` (modelled `.ok false`, i.e.
"button not still there"); any other rejection is re-thrown
(`.error`).  `.ok true` means the control is still present. -/
def requeryCaught : QueryOutcome → Except String Bool
  | .found => .ok true
  | .absent => .ok false
  | .error msg =>
    if strIncludes msg ("Execution context was destroyed")
        || strIncludes msg ("Cannot find context") then .ok false
    else .error msg

/-- The `waitForFunction` arm of the readiness race (part_000 lines
156-161) before its `.catch`: resolves (with `true`) iff the control
disappears from its owning context within `WAKE_READY_TIMEOUT_MS`,
otherwise rejects with a timeout error. -/
def waitForFunctionRes (ctrlGoneInTime : Bool) : Except String Bool :=
  if ctrlGoneInTime then .ok true
  else .error ("TimeoutError: waiting failed: 120000ms exceeded")

/-- The `waitForNavigation` arm of the readiness race (part_000 lines
163-165) before its `.catch`: resolves iff the page reaches a
navigation/network-idle transition within `WAKE_READY_TIMEOUT_MS`. -/
def waitForNavigationRes (navIdleInTime : Bool) : Except String Bool :=
  if navIdleInTime then .ok true
  else .error ("TimeoutError: navigation timeout of 120000ms exceeded")

/-- The `.catch(() => null)` attached to each arm of the race: every
rejection becomes a resolution with `null` (modelled as `false`). -/
def caughtNull : Except String Bool → Except String Bool
  | .error _ => .ok false
  | .ok v => .ok v

/-- `Promise.race` over the two (already `.catch`-wrapped) readiness
arms.  Settlement order is not modelled; a rejection of either arm is
conservatively treated as a rejection of the race.  On the arguments
the script actually passes both arms are `caughtNull`-wrapped and never
reject, where this coincides with the JavaScript semantics. -/
def raceReady (a b : Except String Bool) : Except String Bool :=
  match a with
  | .error e => .error e
  | .ok v =>
    match b with
    | .error e => .error e
    | .ok _ => .ok v

/-- Environment of one attempt of the main loop: the context snapshots
seen by the polling rounds of `findAndClickWakeButton` that fit before
its deadline, whether each readiness signal would resolve within
`WAKE_READY_TIMEOUT_MS` after the click, and the raw outcome of the
post-click re-query. -/
structure AttemptEnv where
  rounds : List (List Ctx)
  ctrlGoneInTime : Bool
  navIdleInTime : Bool
  requery : QueryOutcome

/-- Environment of a whole run: the `page.goto` response
(`none` = no response object, `some s` = HTTP status `s`) and the
per-attempt environment, indexed by the 1-based attempt counter. -/
structure RunEnv where
  response : Option Nat
  attempts : Nat → AttemptEnv

/-- How a run of the main script terminates, as observable from its
logs and exit code: the early `return` that logs `(already awake)`
(part_000 lines 140-146), the final success log with the optional
last-clicked label (lines 205-209), or a `fail(reason, err)` call /
uncaught error funnelled through `fail` (lines 41-52). -/
inductive RunResult where
  | alreadyAwake
  | wokeUp (lastLabel : Option String)
  | failed (reason : String) (errMsg : Option String)
deriving Repr, DecidableEq

/-- Observable trace of one run: its result, the controls clicked (in
order), the backoff sleep durations (in order), whether the browser was
launched and whether `browser.close()` in the `finally` block actually
ran, the process exit code, and the bullet lines `fail` appended to the
failure summary (empty on success). -/
structure RunTrace where
  result : RunResult
  clicks : List Ctx
  backoffs : List Nat
  browserLaunched : Bool
  browserClosed : Bool
  exitCode : Nat
  summaryLines : List String
deriving Repr, DecidableEq

/-- `STREAMLIT_URL` check (part_000 line 55): JavaScript
`if (!STREAMLIT_URL)` is true for an unset or empty variable. -/
def urlMissing : Option String → Bool
  | none => true
  | some s => s.isEmpty

/-- The bullet lines `fail(reason, err)` passes to the failure summary
(part_000 lines 45-49): the URL (or `not set`), the reason, and the
underlying error message when one exists. -/
def failLines (url : Option String) (reason : String)
    (errMsg : Option String) : List String :=
  (("URL: ") ++ (if urlMissing url then ("not set") else url.getD (""))) ::
    (("Reason: ") ++ reason) ::
      (match errMsg with
       | some m => [("Error: ") ++ m]
       | none => [])

/-- `buildFailureSummary` (part_000 lines 20-26): heading, blank line,
one bullet per fact, trailing blank line, joined with newlines. -/
def buildFailureSummary (lines : List String) : String :=
  String.intercalate ("\n")
    ((("### Streamlit keepalive failed") :: ("") ::
      lines.map (fun l => ("- ") ++ l)) ++ [("")])

/-- Reason string of the generic outer `catch` (part_000 line 211). -/
def OUTER_FAIL_REASON : String := "Failed to keep Streamlit app awake"

/-- Reason string of the dead readiness `catch` (part_000 line 169). -/
def READINESS_FAIL_REASON : String :=
  "Wake-up button clicked but app did not become ready in time"

/-- Reason string of the exhausted-attempts `fail` (part_000 line 199). -/
def STILL_PRESENT_FAIL_REASON : String :=
  "Wake-up button still present after all wake attempts; app may still be sleeping"

/-- Error message thrown when `page.goto` yields no response
(part_000 line 81). -/
def NO_RESPONSE_MSG : String := "No response received from the Streamlit app"

/-- Trace of a run that terminates through `fail(reason, errMsg)`.
`fail` calls `process.exit(1)` (part_000 line 51), which terminates the
Node process immediately: the suspended `try`/`finally` never resumes,
so `browser.close()` in the `finally` block (lines 214-218) does not
run on any path through `fail`. -/
def failTrace (url : Option String) (launched : Bool) (reason : String)
    (errMsg : Option String) (clicks : List Ctx) (backoffs : List Nat) :
    RunTrace where
  result := .failed reason errMsg
  clicks := clicks
  backoffs := backoffs
  browserLaunched := launched
  browserClosed := false
  exitCode := 1
  summaryLines := failLines url reason errMsg

/-- The attempt loop `for (let attempt = 1; attempt <= WAKE_MAX_ATTEMPTS; ...)`
(part_000 lines 134-203), with `fuel = maxAttempts - attempt + 1`
iterations remaining.  Each iteration: run `findAndClickWakeButton`; on
`none`, return success `(already awake)`; otherwise record the click
and the label, await the readiness race (whose arms are both
`.catch(() => null)`-wrapped; a rejection would trigger the
`fail(READINESS_FAIL_REASON)` catch), re-query the owning context
through `requeryCaught` (a re-thrown error propagates to the outer
catch), and either break to the final success log, sleep an exponential
backoff and continue, or `fail(STILL_PRESENT_FAIL_REASON)` on the last
attempt.  Sleeps other than backoffs (settle, grace, poll interval)
have no observable effect and are not recorded. -/
def runLoop (env : RunEnv) (url : Option String) (maxAttempts : Nat) :
    Nat → Nat → Option String → List Ctx → List Nat → RunTrace
  | 0, _, lastLabel, clicks, backoffs =>
    { result := .wokeUp lastLabel
      clicks := clicks
      backoffs := backoffs
      browserLaunched := true
      browserClosed := true
      exitCode := 0
      summaryLines := [] }
  | fuel + 1, attempt, _lastLabel, clicks, backoffs =>
    let a := env.attempts attempt
    match findAndClick a.rounds with
    | none =>
      { result := .alreadyAwake
        clicks := clicks
        backoffs := backoffs
        browserLaunched := true
        browserClosed := true
        exitCode := 0
        summaryLines := [] }
    | some c =>
      let clicks := clicks ++ [c]
      let lastLabel := some c.label
      match raceReady (caughtNull (waitForFunctionRes a.ctrlGoneInTime))
          (caughtNull (waitForNavigationRes a.navIdleInTime)) with
      | .error e => failTrace url true READINESS_FAIL_REASON (some e) clicks backoffs
      | .ok _ =>
        match requeryCaught a.requery with
        | .error msg => failTrace url true OUTER_FAIL_REASON (some msg) clicks backoffs
        | .ok false =>
          { result := .wokeUp lastLabel
            clicks := clicks
            backoffs := backoffs
            browserLaunched := true
            browserClosed := true
            exitCode := 0
            summaryLines := [] }
        | .ok true =>
          if attempt < maxAttempts then
            runLoop env url maxAttempts fuel (attempt + 1) lastLabel clicks
              (backoffs ++ [WAKE_RETRY_BACKOFF_BASE_MS * 2 ^ (attempt - 1)])
          else
            failTrace url true STILL_PRESENT_FAIL_REASON none clicks backoffs

/-- The whole run of `src/unnamed/part_000`: the `STREAMLIT_URL` guard,
browser launch, `page.goto` with its no-response and `status >= 400`
checks (whose thrown errors reach the outer catch and `fail` with
`OUTER_FAIL_REASON`), then the attempt loop starting at attempt 1.
`maxAttempts` is `WAKE_MAX_ATTEMPTS` in the script; it is kept as a
parameter so that the loop can be stated generally. -/
def runKeepalive (url : Option String) (env : RunEnv) (maxAttempts : Nat) :
    RunTrace :=
  if urlMissing url then
    failTrace url false ("STREAMLIT_URL env var is required") none [] []
  else
    match env.response with
    | none => failTrace url true OUTER_FAIL_REASON (some NO_RESPONSE_MSG) [] []
    | some status =>
      if 400 ≤ status then
        failTrace url true OUTER_FAIL_REASON
          (some (("Unexpected response status: ") ++ toString status)) [] []
      else
        runLoop env url maxAttempts maxAttempts 1 none [] []

/-- Value carried by a `.catch(() => null)`-wrapped promise: the
original resolution, or `false` (for `null`) if it rejected. -/
def caughtVal : Except String Bool → Bool
  | .ok v => v
  | .error _ => false

theorem caughtNull_eq_ok (x : Except String Bool) :
    caughtNull x = .ok (caughtVal x) := by
  cases x <;> rfl

/-- The readiness race over the two `.catch(() => null)`-wrapped arms
always resolves: it can never reject, whatever the underlying waits
do, so the `catch (readyError)` around it can never fire. -/
theorem raceReady_caughtNull (x y : Except String Bool) :
    raceReady (caughtNull x) (caughtNull y) = .ok (caughtVal x) := by
  cases x <;> cases y <;> rfl

theorem scanContexts_eq_find? (cs : List Ctx) :
    scanContexts cs = cs.find? actionable := by
  induction cs with
  | nil => rfl
  | cons c rest ih =>
    simp only [scanContexts, List.find?, actionable]
    cases hb : c.hasButton with
    | false => simpa using ih
    | true =>
      cases hbox : c.hasBox with
      | true => simp
      | false =>
        cases hv : c.inViewport with
        | true => simp
        | false => simpa using ih

theorem scanContexts_some_actionable {cs : List Ctx} {c : Ctx}
    (h : scanContexts cs = some c) : actionable c = true := by
  rw [scanContexts_eq_find?] at h
  exact List.find?_some h

theorem findAndClick_some_actionable {rs : List (List Ctx)} {c : Ctx}
    (h : findAndClick rs = some c) : actionable c = true := by
  induction rs with
  | nil => simp [findAndClick] at h
  | cons r rs ih =>
    simp only [findAndClick] at h
    cases hs : scanContexts r with
    | some d =>
      rw [hs] at h
      cases h
      exact scanContexts_some_actionable hs
    | none =>
      rw [hs] at h
      exact ih h

theorem runLoop_not_found (env : RunEnv) (url : Option String) (m fuel attempt : Nat)
    (lastLabel : Option String) (clicks : List Ctx) (backoffs : List Nat)
    (hf : findAndClick (env.attempts attempt).rounds = none) :
    runLoop env url m (fuel + 1) attempt lastLabel clicks backoffs =
      { result := .alreadyAwake
        clicks := clicks
        backoffs := backoffs
        browserLaunched := true
        browserClosed := true
        exitCode := 0
        summaryLines := [] } := by
  simp only [runLoop, hf]

theorem runLoop_clicked_gone (env : RunEnv) (url : Option String) (m fuel attempt : Nat)
    (lastLabel : Option String) (clicks : List Ctx) (backoffs : List Nat) (c : Ctx)
    (hf : findAndClick (env.attempts attempt).rounds = some c)
    (hq : requeryCaught (env.attempts attempt).requery = .ok false) :
    runLoop env url m (fuel + 1) attempt lastLabel clicks backoffs =
      { result := .wokeUp (some c.label)
        clicks := clicks ++ [c]
        backoffs := backoffs
        browserLaunched := true
        browserClosed := true
        exitCode := 0
        summaryLines := [] } := by
  simp only [runLoop, hf, raceReady_caughtNull, hq]

theorem runLoop_clicked_still_retry (env : RunEnv) (url : Option String)
    (m fuel attempt : Nat) (lastLabel : Option String) (clicks : List Ctx)
    (backoffs : List Nat) (c : Ctx)
    (hf : findAndClick (env.attempts attempt).rounds = some c)
    (hq : requeryCaught (env.attempts attempt).requery = .ok true)
    (hlt : attempt < m) :
    runLoop env url m (fuel + 1) attempt lastLabel clicks backoffs =
      runLoop env url m fuel (attempt + 1) (some c.label) (clicks ++ [c])
        (backoffs ++ [WAKE_RETRY_BACKOFF_BASE_MS * 2 ^ (attempt - 1)]) := by
  simp only [runLoop, hf, raceReady_caughtNull, hq, if_pos hlt]

theorem runLoop_clicked_still_last (env : RunEnv) (url : Option String)
    (m fuel attempt : Nat) (lastLabel : Option String) (clicks : List Ctx)
    (backoffs : List Nat) (c : Ctx)
    (hf : findAndClick (env.attempts attempt).rounds = some c)
    (hq : requeryCaught (env.attempts attempt).requery = .ok true)
    (hge : ¬ attempt < m) :
    runLoop env url m (fuel + 1) attempt lastLabel clicks backoffs =
      failTrace url true STILL_PRESENT_FAIL_REASON none (clicks ++ [c]) backoffs := by
  simp only [runLoop, hf, raceReady_caughtNull, hq, if_neg hge]

theorem runLoop_requery_error (env : RunEnv) (url : Option String)
    (m fuel attempt : Nat) (lastLabel : Option String) (clicks : List Ctx)
    (backoffs : List Nat) (c : Ctx) (msg : String)
    (hf : findAndClick (env.attempts attempt).rounds = some c)
    (hq : requeryCaught (env.attempts attempt).requery = .error msg) :
    runLoop env url m (fuel + 1) attempt lastLabel clicks backoffs =
      failTrace url true OUTER_FAIL_REASON (some msg) (clicks ++ [c]) backoffs := by
  simp only [runLoop, hf, raceReady_caughtNull, hq]

/-- In any reachable state of the attempt loop, the readiness-timeout
`fail` path cannot be taken: the run never terminates with
`READINESS_FAIL_REASON`.  (The `catch (readyError)` in part_000 lines
168-172 is dead code because both race arms swallow their timeout
rejections with `.catch(() => null)`.) -/
theorem runLoop_never_readiness_fail (env : RunEnv) (url : Option String) (m : Nat) :
    ∀ fuel attempt lastLabel clicks backoffs e,
      (runLoop env url m fuel attempt lastLabel clicks backoffs).result ≠
        .failed READINESS_FAIL_REASON e := by
  intro fuel
  induction fuel with
  | zero =>
    intro attempt lastLabel clicks backoffs e
    simp [runLoop]
  | succ fuel ih =>
    intro attempt lastLabel clicks backoffs e
    cases hf : findAndClick (env.attempts attempt).rounds with
    | none => simp [runLoop_not_found env url m fuel attempt lastLabel clicks backoffs hf]
    | some c =>
      cases hq : requeryCaught (env.attempts attempt).requery with
      | error msg =>
        rw [runLoop_requery_error env url m fuel attempt lastLabel clicks backoffs c msg hf hq]
        simp [failTrace, OUTER_FAIL_REASON, READINESS_FAIL_REASON]
      | ok b =>
        cases b with
        | false =>
          rw [runLoop_clicked_gone env url m fuel attempt lastLabel clicks backoffs c hf hq]
          simp
        | true =>
          by_cases hlt : attempt < m
          · rw [runLoop_clicked_still_retry env url m fuel attempt lastLabel clicks backoffs
              c hf hq hlt]
            exact ih (attempt + 1) (some c.label) (clicks ++ [c])
              (backoffs ++ [WAKE_RETRY_BACKOFF_BASE_MS * 2 ^ (attempt - 1)]) e
          · rw [runLoop_clicked_still_last env url m fuel attempt lastLabel clicks backoffs
              c hf hq hlt]
            simp [failTrace, STILL_PRESENT_FAIL_REASON, READINESS_FAIL_REASON]

/-- Every control the attempt loop ever clicks is actionable. -/
theorem runLoop_clicks_actionable (env : RunEnv) (url : Option String) (m : Nat) :
    ∀ fuel attempt lastLabel clicks backoffs,
      clicks.all actionable = true →
      ((runLoop env url m fuel attempt lastLabel clicks backoffs).clicks.all actionable)
        = true := by
  intro fuel
  induction fuel with
  | zero =>
    intro attempt lastLabel clicks backoffs hcl
    simpa [runLoop] using hcl
  | succ fuel ih =>
    intro attempt lastLabel clicks backoffs hcl
    cases hf : findAndClick (env.attempts attempt).rounds with
    | none =>
      rw [runLoop_not_found env url m fuel attempt lastLabel clicks backoffs hf]
      exact hcl
    | some c =>
      have hact : actionable c = true := findAndClick_some_actionable hf
      have hcl' : (clicks ++ [c]).all actionable = true := by
        simp [List.all_append, hcl, hact]
      cases hq : requeryCaught (env.attempts attempt).requery with
      | error msg =>
        rw [runLoop_requery_error env url m fuel attempt lastLabel clicks backoffs c msg hf hq]
        exact hcl'
      | ok b =>
        cases b with
        | false =>
          rw [runLoop_clicked_gone env url m fuel attempt lastLabel clicks backoffs c hf hq]
          exact hcl'
        | true =>
          by_cases hlt : attempt < m
          · rw [runLoop_clicked_still_retry env url m fuel attempt lastLabel clicks backoffs
              c hf hq hlt]
            exact ih (attempt + 1) (some c.label) (clicks ++ [c])
              (backoffs ++ [WAKE_RETRY_BACKOFF_BASE_MS * 2 ^ (attempt - 1)]) hcl'
          · rw [runLoop_clicked_still_last env url m fuel attempt lastLabel clicks backoffs
              c hf hq hlt]
            exact hcl'

theorem runKeepalive_url_missing (url : Option String) (env : RunEnv) (n : Nat)
    (hu : urlMissing url = true) :
    runKeepalive url env n =
      failTrace url false ("STREAMLIT_URL env var is required") none [] [] := by
  simp [runKeepalive, hu]

theorem runKeepalive_ok (url : Option String) (env : RunEnv) (n s : Nat)
    (hu : urlMissing url = false) (hs : env.response = some s) (hlt : s < 400) :
    runKeepalive url env n = runLoop env url n n 1 none [] [] := by
  simp [runKeepalive, hu, hs, Nat.not_le.mpr hlt]

theorem runKeepalive_status_fail (url : Option String) (env : RunEnv) (n s : Nat)
    (hu : urlMissing url = false) (hs : env.response = some s) (hge : 400 ≤ s) :
    runKeepalive url env n =
      failTrace url true OUTER_FAIL_REASON
        (some (("Unexpected response status: ") ++ toString s)) [] [] := by
  simp [runKeepalive, hu, hs, hge]

theorem runKeepalive_no_response_fail (url : Option String) (env : RunEnv) (n : Nat)
    (hu : urlMissing url = false) (hs : env.response = none) :
    runKeepalive url env n =
      failTrace url true OUTER_FAIL_REASON (some NO_RESPONSE_MSG) [] [] := by
  simp [runKeepalive, hu, hs]

/-- In the attempt loop, the label reported by the final success log is
always the label of the most recent click: each click overwrites
`lastClickedLabel` rather than accumulating. -/
theorem runLoop_wokeUp_lastLabel (env : RunEnv) (url : Option String) (m : Nat) :
    ∀ fuel attempt lastLabel clicks backoffs,
      lastLabel = (clicks.getLast?).map Ctx.label →
      ∀ l, (runLoop env url m fuel attempt lastLabel clicks backoffs).result = .wokeUp l →
        l = (((runLoop env url m fuel attempt lastLabel clicks backoffs).clicks.getLast?).map
          Ctx.label) := by
  intro fuel
  induction fuel with
  | zero =>
    intro attempt lastLabel clicks backoffs hinv l hl
    simp only [runLoop] at hl ⊢
    cases hl
    exact hinv
  | succ fuel ih =>
    intro attempt lastLabel clicks backoffs hinv l hl
    cases hf : findAndClick (env.attempts attempt).rounds with
    | none =>
      rw [runLoop_not_found env url m fuel attempt lastLabel clicks backoffs hf] at hl
      simp at hl
    | some c =>
      have hlast : ((clicks ++ [c]).getLast?).map Ctx.label = some c.label := by
        simp
      cases hq : requeryCaught (env.attempts attempt).requery with
      | error msg =>
        rw [runLoop_requery_error env url m fuel attempt lastLabel clicks backoffs
          c msg hf hq] at hl
        simp [failTrace] at hl
      | ok b =>
        cases b with
        | false =>
          rw [runLoop_clicked_gone env url m fuel attempt lastLabel clicks backoffs c hf hq]
            at hl ⊢
          cases hl
          exact hlast.symm
        | true =>
          by_cases hlt : attempt < m
          · rw [runLoop_clicked_still_retry env url m fuel attempt lastLabel clicks backoffs
              c hf hq hlt] at hl ⊢
            exact ih (attempt + 1) (some c.label) (clicks ++ [c])
              (backoffs ++ [WAKE_RETRY_BACKOFF_BASE_MS * 2 ^ (attempt - 1)]) hlast.symm l hl
          · rw [runLoop_clicked_still_last env url m fuel attempt lastLabel clicks backoffs
              c hf hq hlt] at hl
            simp [failTrace] at hl

/-- In the attempt loop, `browser.close()` runs exactly on the success
exits: the `finally` block resumes after `return`/`break`, but every
path through `fail` reaches `process.exit(1)` first. -/
theorem runLoop_closed_iff_success (env : RunEnv) (url : Option String) (m : Nat) :
    ∀ fuel attempt lastLabel clicks backoffs,
      ((runLoop env url m fuel attempt lastLabel clicks backoffs).browserClosed = true ↔
        (runLoop env url m fuel attempt lastLabel clicks backoffs).exitCode = 0) := by
  intro fuel
  induction fuel with
  | zero =>
    intro attempt lastLabel clicks backoffs
    simp [runLoop]
  | succ fuel ih =>
    intro attempt lastLabel clicks backoffs
    cases hf : findAndClick (env.attempts attempt).rounds with
    | none =>
      rw [runLoop_not_found env url m fuel attempt lastLabel clicks backoffs hf]
      simp
    | some c =>
      cases hq : requeryCaught (env.attempts attempt).requery with
      | error msg =>
        rw [runLoop_requery_error env url m fuel attempt lastLabel clicks backoffs c msg hf hq]
        simp [failTrace]
      | ok b =>
        cases b with
        | false =>
          rw [runLoop_clicked_gone env url m fuel attempt lastLabel clicks backoffs c hf hq]
          simp
        | true =>
          by_cases hlt : attempt < m
          · rw [runLoop_clicked_still_retry env url m fuel attempt lastLabel clicks backoffs
              c hf hq hlt]
            exact ih (attempt + 1) (some c.label) (clicks ++ [c])
              (backoffs ++ [WAKE_RETRY_BACKOFF_BASE_MS * 2 ^ (attempt - 1)])
          · rw [runLoop_clicked_still_last env url m fuel attempt lastLabel clicks backoffs
              c hf hq hlt]
            simp [failTrace]

/-- C3: the locator scans the contexts in their fixed order (main page
first, then frames in driver order) and clicks in the first context
holding an actionable match, never a later one: if position `i` holds
an actionable match and no earlier position does, the scan returns
exactly the context at position `i`, regardless of how many later
contexts also match the marker selector. -/
theorem locator_returns_first_actionable_context (cs : List Ctx) (i : Nat)
    (hi : i < cs.length) (hact : actionable (cs.get ⟨i, hi⟩) = true)
    (hbefore : ∀ j (hj : j < cs.length), j < i → actionable (cs.get ⟨j, hj⟩) = false) :
    scanContexts cs = some (cs.get ⟨i, hi⟩) := by
  induction cs generalizing i with
  | nil => exact absurd hi (by simp)
  | cons c rest ih =>
    cases i with
    | zero =>
      rw [scanContexts_eq_find?]
      simpa using List.find?_cons_of_pos rest (by simpa using hact)
    | succ i =>
      have hi' : i < rest.length := by simpa using hi
      have h0 : actionable c = false := by
        simpa using hbefore 0 (by simp) (Nat.succ_pos i)
      have hrest : scanContexts rest = some (rest.get ⟨i, hi'⟩) := by
        apply ih i hi' (by simpa using hact)
        intro j hj hji
        simpa using hbefore (j + 1) (by simpa using hj) (Nat.succ_lt_succ hji)
      calc scanContexts (c :: rest) = scanContexts rest := by
            rw [scanContexts_eq_find?, scanContexts_eq_find?, List.find?_cons_of_neg]
            simp [h0]
        _ = some ((c :: rest).get ⟨i + 1, hi⟩) := by rw [hrest]; simp

/-- C3 witness: four contexts, the marker matching in positions 0, 2
and 3 but actionable only from position 2 on; the scan clicks the
context at position 2 and never the later match at position 3. -/
theorem locator_returns_first_actionable_context_witness :
    scanContexts
      [{ label := "main page", hasButton := true, hasBox := false, inViewport := false },
       { label := "frame a", hasButton := false, hasBox := false, inViewport := false },
       { label := "frame b", hasButton := true, hasBox := true, inViewport := false },
       { label := "frame c", hasButton := true, hasBox := true, inViewport := true }] =
      some { label := "frame b", hasButton := true, hasBox := true, inViewport := false } := by
  have h := locator_returns_first_actionable_context
    [{ label := "main page", hasButton := true, hasBox := false, inViewport := false },
     { label := "frame a", hasButton := false, hasBox := false, inViewport := false },
     { label := "frame b", hasButton := true, hasBox := true, inViewport := false },
     { label := "frame c", hasButton := true, hasBox := true, inViewport := true }]
    2 (by decide) (by decide) (by decide)
  simpa using h

/-- C2: every control ever clicked during a run is actionable (has a
bounding box or intersects the viewport): a located control with a null
bounding box that does not intersect the viewport is never clicked —
the `!box && !inViewport` guard makes the scan `continue` past it to
the remaining contexts instead. -/
theorem main_script_never_clicks_unactionable :
    (∀ url env n, (((runKeepalive url env n).clicks.all actionable) = true)) ∧
    (∀ label rest,
      scanContexts ((⟨label, true, false, false⟩ : Ctx) :: rest) = scanContexts rest) := by
  constructor
  · intro url env n
    cases hu : urlMissing url with
    | true => simp [runKeepalive, hu, failTrace]
    | false =>
      cases hs : env.response with
      | none => simp [runKeepalive, hu, hs, failTrace]
      | some s =>
        by_cases hge : 400 ≤ s
        · simp [runKeepalive, hu, hs, hge, failTrace]
        · rw [runKeepalive_ok url env n s hu hs (Nat.lt_of_not_le hge)]
          exact runLoop_clicks_actionable env url n n 1 none [] [] (by simp)
  · intro label rest
    rfl

/-- C4: if the wake control is never found in any context before the
polling deadline (attempt 1's poll loop returns nothing), the run ends
immediately as a success recording `already awake`, with exit code 0,
zero clicks, zero backoffs, and the browser closed by the `finally`
block. -/
theorem run_already_awake_when_never_found (u : String) (env : RunEnv) (n : Nat)
    (hu : u.isEmpty = false)
    (hok : ∃ s, env.response = some s ∧ s < 400)
    (hf : findAndClick (env.attempts 1).rounds = none) :
    runKeepalive (some u) env (n + 1) =
      { result := .alreadyAwake
        clicks := []
        backoffs := []
        browserLaunched := true
        browserClosed := true
        exitCode := 0
        summaryLines := [] } := by
  obtain ⟨s, hs, hlt⟩ := hok
  have hu' : urlMissing (some u) = false := hu
  rw [runKeepalive_ok (some u) env (n + 1) s hu' hs hlt]
  exact runLoop_not_found env (some u) (n + 1) n 1 none [] [] hf

/-- Run environment whose poll rounds never contain the wake control
and whose navigation returned HTTP 200. -/
def envNeverFound : RunEnv where
  response := some 200
  attempts := fun _ =>
    { rounds := [[], [⟨"frame x", false, false, false⟩]]
      ctrlGoneInTime := false
      navIdleInTime := false
      requery := .absent }

/-- C4 witness: a concrete run (three attempts allowed, HTTP 200, the
control absent from every polled context) succeeds as already awake
with zero clicks. -/
theorem run_already_awake_when_never_found_witness :
    runKeepalive (some ("https://example.streamlit.app")) envNeverFound (2 + 1) =
      { result := .alreadyAwake
        clicks := []
        backoffs := []
        browserLaunched := true
        browserClosed := true
        exitCode := 0
        summaryLines := [] } :=
  run_already_awake_when_never_found ("https://example.streamlit.app") envNeverFound 2
    (by decide) ⟨200, rfl, by decide⟩ rfl

/-- C6: a post-click re-query that rejects because the owning context's
document was destroyed is converted by the catch handler to the same
result as a genuinely absent control (`.ok false`, i.e. gone), the
error is not re-raised, and the attempt therefore terminates the loop
through the same confirmed-gone success exit. -/
theorem destroyed_context_requery_treated_as_gone (msg : String) (env : RunEnv)
    (url : Option String) (m fuel attempt : Nat) (lastLabel : Option String)
    (clicks : List Ctx) (backoffs : List Nat) (c : Ctx)
    (h : strIncludes msg ("Execution context was destroyed") = true)
    (hf : findAndClick (env.attempts attempt).rounds = some c)
    (hq : (env.attempts attempt).requery = .error msg) :
    requeryCaught (.error msg) = .ok false ∧
    requeryCaught (.error msg) = requeryCaught .absent ∧
    runLoop env url m (fuel + 1) attempt lastLabel clicks backoffs =
      { result := .wokeUp (some c.label)
        clicks := clicks ++ [c]
        backoffs := backoffs
        browserLaunched := true
        browserClosed := true
        exitCode := 0
        summaryLines := [] } := by
  have hcaught : requeryCaught (.error msg) = .ok false := by
    simp [requeryCaught, h]
  refine ⟨hcaught, by rw [hcaught]; rfl, ?step⟩
  exact runLoop_clicked_gone env url m fuel attempt lastLabel clicks backoffs c hf
    (by rw [hq]; exact hcaught)

/-- The control as found before the click in the C6 witness run. -/
def ctxMain : Ctx := ⟨"main page", true, true, true⟩

/-- Puppeteer's wording for a query racing a navigation. -/
def DESTROYED_MSG : String :=
  "Execution context was destroyed, most likely because of a navigation."

/-- Run environment where the control is clicked and the post-click
re-query rejects because navigation destroyed the owning context. -/
def envDestroyed : RunEnv where
  response := some 200
  attempts := fun _ =>
    { rounds := [[ctxMain]]
      ctrlGoneInTime := false
      navIdleInTime := true
      requery := .error DESTROYED_MSG }

/-- C6 witness: with puppeteer's destroyed-context message, the caught
re-query yields gone, equals the genuinely-absent result, and the loop
exits through the confirmed-gone success. -/
theorem destroyed_context_requery_treated_as_gone_witness :
    requeryCaught (.error DESTROYED_MSG) = .ok false ∧
    requeryCaught (.error DESTROYED_MSG) = requeryCaught .absent ∧
    runLoop envDestroyed (some ("https://example.streamlit.app")) 3 (2 + 1) 1 none [] [] =
      { result := .wokeUp (some ctxMain.label)
        clicks := [] ++ [ctxMain]
        backoffs := []
        browserLaunched := true
        browserClosed := true
        exitCode := 0
        summaryLines := [] } :=
  destroyed_context_requery_treated_as_gone DESTROYED_MSG envDestroyed
    (some ("https://example.streamlit.app")) 3 2 1 none [] [] ctxMain
    (by decide) rfl rfl

/-- C7: a navigation that yields no response object or an HTTP status
of at least 400 terminates the run through the failure path before any
click is issued: exit code 1, zero clicks, the generic outer-catch
reason, and a failure summary whose bullet lines contain the target URL
and the reason. -/
theorem navigation_error_fails_before_clicks (u : String) (env : RunEnv) (n : Nat)
    (hu : u.isEmpty = false)
    (h : env.response = none ∨ ∃ s, env.response = some s ∧ 400 ≤ s) :
    (runKeepalive (some u) env n).exitCode = 1 ∧
    (runKeepalive (some u) env n).clicks = [] ∧
    (∃ e, (runKeepalive (some u) env n).result = .failed OUTER_FAIL_REASON (some e)) ∧
    (("URL: ") ++ u) ∈ (runKeepalive (some u) env n).summaryLines ∧
    (("Reason: ") ++ OUTER_FAIL_REASON) ∈ (runKeepalive (some u) env n).summaryLines := by
  have hu' : urlMissing (some u) = false := hu
  have hurl : (("URL: ") ++ (if urlMissing (some u) then ("not set")
      else (some u).getD (""))) = ("URL: ") ++ u := by
    simp [hu']
  rcases h with hnone | ⟨s, hs, hge⟩
  · rw [runKeepalive_no_response_fail (some u) env n hu' hnone]
    refine ⟨rfl, rfl, ⟨NO_RESPONSE_MSG, rfl⟩, ?_, ?_⟩
    · simpa [failTrace, failLines] using Or.inl hurl.symm
    · simp [failTrace, failLines]
  · rw [runKeepalive_status_fail (some u) env n s hu' hs hge]
    refine ⟨rfl, rfl, ⟨("Unexpected response status: ") ++ toString s, rfl⟩, ?_, ?_⟩
    · simpa [failTrace, failLines] using Or.inl hurl.symm
    · simp [failTrace, failLines]

/-- Run environment whose navigation answered with HTTP 500. -/
def env500 : RunEnv where
  response := some 500
  attempts := fun _ =>
    { rounds := [[ctxMain]]
      ctrlGoneInTime := false
      navIdleInTime := false
      requery := .absent }

/-- C7 witness: a run whose URL responds with status 500 fails before
any click and its summary carries the URL and reason lines. -/
theorem navigation_error_fails_before_clicks_witness :
    (runKeepalive (some ("https://example.streamlit.app")) env500 3).exitCode = 1 ∧
    (runKeepalive (some ("https://example.streamlit.app")) env500 3).clicks = [] ∧
    (∃ e, (runKeepalive (some ("https://example.streamlit.app")) env500 3).result =
      .failed OUTER_FAIL_REASON (some e)) ∧
    (("URL: ") ++ ("https://example.streamlit.app")) ∈
      (runKeepalive (some ("https://example.streamlit.app")) env500 3).summaryLines ∧
    (("Reason: ") ++ OUTER_FAIL_REASON) ∈
      (runKeepalive (some ("https://example.streamlit.app")) env500 3).summaryLines :=
  navigation_error_fails_before_clicks ("https://example.streamlit.app") env500 3
    (by decide) (Or.inr ⟨500, rfl, by decide⟩)

/-- C5: if all `WAKE_MAX_ATTEMPTS` (= 3) attempts click the control and
it is still present after each click, the run terminates through
`fail(STILL_PRESENT_FAIL_REASON)` with exit code 1, exactly
`WAKE_MAX_ATTEMPTS` clicks were issued, and a backoff sleep of
2000·2^(k-1) ms separates attempts k and k+1 — the base delay doubled
per prior attempt, hence strictly increasing. -/
theorem all_attempts_still_present_fails (u : String) (env : RunEnv)
    (c1 c2 c3 : Ctx) (hu : u.isEmpty = false)
    (hok : ∃ s, env.response = some s ∧ s < 400)
    (hf1 : findAndClick (env.attempts 1).rounds = some c1)
    (hq1 : requeryCaught (env.attempts 1).requery = .ok true)
    (hf2 : findAndClick (env.attempts 2).rounds = some c2)
    (hq2 : requeryCaught (env.attempts 2).requery = .ok true)
    (hf3 : findAndClick (env.attempts 3).rounds = some c3)
    (hq3 : requeryCaught (env.attempts 3).requery = .ok true) :
    runKeepalive (some u) env WAKE_MAX_ATTEMPTS =
      failTrace (some u) true STILL_PRESENT_FAIL_REASON none [c1, c2, c3] [2000, 4000] ∧
    [c1, c2, c3].length = WAKE_MAX_ATTEMPTS ∧
    [2000, 4000] = [WAKE_RETRY_BACKOFF_BASE_MS * 2 ^ (1 - 1),
      WAKE_RETRY_BACKOFF_BASE_MS * 2 ^ (2 - 1)] ∧
    List.Chain' (fun a b => a < b) [2000, 4000] := by
  obtain ⟨s, hs, hlt⟩ := hok
  have hu' : urlMissing (some u) = false := hu
  have e0 : runKeepalive (some u) env WAKE_MAX_ATTEMPTS =
      runLoop env (some u) 3 3 1 none [] [] :=
    runKeepalive_ok (some u) env WAKE_MAX_ATTEMPTS s hu' hs hlt
  have step1 : runLoop env (some u) 3 3 1 none [] [] =
      runLoop env (some u) 3 2 2 (some c1.label) [c1] [2000] :=
    runLoop_clicked_still_retry env (some u) 3 2 1 none [] [] c1 hf1 hq1 (by decide)
  have step2 : runLoop env (some u) 3 2 2 (some c1.label) [c1] [2000] =
      runLoop env (some u) 3 1 3 (some c2.label) [c1, c2] [2000, 4000] :=
    runLoop_clicked_still_retry env (some u) 3 1 2 (some c1.label) [c1] [2000] c2
      hf2 hq2 (by decide)
  have step3 : runLoop env (some u) 3 1 3 (some c2.label) [c1, c2] [2000, 4000] =
      failTrace (some u) true STILL_PRESENT_FAIL_REASON none [c1, c2, c3] [2000, 4000] :=
    runLoop_clicked_still_last env (some u) 3 0 3 (some c2.label) [c1, c2] [2000, 4000]
      c3 hf3 hq3 (by decide)
  refine ⟨e0.trans (step1.trans (step2.trans step3)), rfl, rfl, ?_⟩
  simp [List.chain'_cons]

/-- Run environment where the control is clicked every attempt, the
navigation-idle readiness signal resolves, and the control is still
present at every re-query. -/
def envStillPresent : RunEnv where
  response := some 200
  attempts := fun _ =>
    { rounds := [[ctxMain]]
      ctrlGoneInTime := false
      navIdleInTime := true
      requery := .found }

/-- C5 witness: on a concrete run where the control survives all three
clicks, the run fails with the exhausted-attempts reason after exactly
three clicks and backoffs 2000 ms then 4000 ms. -/
theorem all_attempts_still_present_fails_witness :
    runKeepalive (some ("https://example.streamlit.app")) envStillPresent WAKE_MAX_ATTEMPTS =
      failTrace (some ("https://example.streamlit.app")) true STILL_PRESENT_FAIL_REASON none
        [ctxMain, ctxMain, ctxMain] [2000, 4000] ∧
    [ctxMain, ctxMain, ctxMain].length = WAKE_MAX_ATTEMPTS ∧
    [2000, 4000] = [WAKE_RETRY_BACKOFF_BASE_MS * 2 ^ (1 - 1),
      WAKE_RETRY_BACKOFF_BASE_MS * 2 ^ (2 - 1)] ∧
    List.Chain' (fun a b => a < b) [2000, 4000] :=
  all_attempts_still_present_fails ("https://example.streamlit.app") envStillPresent
    ctxMain ctxMain ctxMain (by decide) ⟨200, rfl, by decide⟩ rfl rfl rfl rfl rfl rfl

/-- C9: with three attempts allowed, if the control is clicked on
attempts 1 and 2 but still present after each, and clicked and
confirmed gone on attempt 3, the run succeeds on attempt 3 recording
that attempt's label, and exactly two backoff sleeps occurred — 2000 ms
after attempt 1 and 4000 ms after attempt 2, none after attempt 3. -/
theorem third_attempt_success_two_backoffs (u : String) (env : RunEnv)
    (c1 c2 c3 : Ctx) (hu : u.isEmpty = false)
    (hok : ∃ s, env.response = some s ∧ s < 400)
    (hf1 : findAndClick (env.attempts 1).rounds = some c1)
    (hq1 : requeryCaught (env.attempts 1).requery = .ok true)
    (hf2 : findAndClick (env.attempts 2).rounds = some c2)
    (hq2 : requeryCaught (env.attempts 2).requery = .ok true)
    (hf3 : findAndClick (env.attempts 3).rounds = some c3)
    (hq3 : requeryCaught (env.attempts 3).requery = .ok false) :
    runKeepalive (some u) env WAKE_MAX_ATTEMPTS =
      { result := .wokeUp (some c3.label)
        clicks := [c1, c2, c3]
        backoffs := [2000, 4000]
        browserLaunched := true
        browserClosed := true
        exitCode := 0
        summaryLines := [] } ∧
    [2000, 4000].length = 2 := by
  obtain ⟨s, hs, hlt⟩ := hok
  have hu' : urlMissing (some u) = false := hu
  have e0 : runKeepalive (some u) env WAKE_MAX_ATTEMPTS =
      runLoop env (some u) 3 3 1 none [] [] :=
    runKeepalive_ok (some u) env WAKE_MAX_ATTEMPTS s hu' hs hlt
  have step1 : runLoop env (some u) 3 3 1 none [] [] =
      runLoop env (some u) 3 2 2 (some c1.label) [c1] [2000] :=
    runLoop_clicked_still_retry env (some u) 3 2 1 none [] [] c1 hf1 hq1 (by decide)
  have step2 : runLoop env (some u) 3 2 2 (some c1.label) [c1] [2000] =
      runLoop env (some u) 3 1 3 (some c2.label) [c1, c2] [2000, 4000] :=
    runLoop_clicked_still_retry env (some u) 3 1 2 (some c1.label) [c1] [2000] c2
      hf2 hq2 (by decide)
  have step3 : runLoop env (some u) 3 1 3 (some c2.label) [c1, c2] [2000, 4000] =
      { result := .wokeUp (some c3.label)
        clicks := [c1, c2, c3]
        backoffs := [2000, 4000]
        browserLaunched := true
        browserClosed := true
        exitCode := 0
        summaryLines := [] } :=
    runLoop_clicked_gone env (some u) 3 0 3 (some c2.label) [c1, c2] [2000, 4000] c3 hf3 hq3
  exact ⟨e0.trans (step1.trans (step2.trans step3)), rfl⟩

/-- Run environment realising the C9 scenario: the control survives the
clicks of attempts 1 and 2 and is gone after attempt 3's click. -/
def envThirdTime : RunEnv where
  response := some 200
  attempts := fun k =>
    if k = 3 then
      { rounds := [[ctxMain]]
        ctrlGoneInTime := true
        navIdleInTime := false
        requery := .absent }
    else
      { rounds := [[ctxMain]]
        ctrlGoneInTime := false
        navIdleInTime := true
        requery := .found }

/-- C9 witness: the concrete three-attempt scenario succeeds on attempt
3 with exactly the two backoffs 2000 ms and 4000 ms. -/
theorem third_attempt_success_two_backoffs_witness :
    runKeepalive (some ("https://example.streamlit.app")) envThirdTime WAKE_MAX_ATTEMPTS =
      { result := .wokeUp (some ctxMain.label)
        clicks := [ctxMain, ctxMain, ctxMain]
        backoffs := [2000, 4000]
        browserLaunched := true
        browserClosed := true
        exitCode := 0
        summaryLines := [] } ∧
    [2000, 4000].length = 2 :=
  third_attempt_success_two_backoffs ("https://example.streamlit.app") envThirdTime
    ctxMain ctxMain ctxMain (by decide) ⟨200, rfl, by decide⟩ rfl rfl rfl rfl rfl rfl

/-- C10: whenever the run ends through the final success log, the label
it records is the label of the most recently clicked context — each
attempt's click overwrites `lastClickedLabel`, so earlier attempts'
labels are discarded, not accumulated. -/
theorem success_label_is_last_click (url : Option String) (env : RunEnv) (n : Nat)
    (l : Option String)
    (h : (runKeepalive url env n).result = .wokeUp l) :
    l = (((runKeepalive url env n).clicks.getLast?).map Ctx.label) := by
  cases hu : urlMissing url with
  | true =>
    rw [runKeepalive_url_missing url env n hu] at h
    simp [failTrace] at h
  | false =>
    cases hs : env.response with
    | none =>
      rw [runKeepalive_no_response_fail url env n hu hs] at h
      simp [failTrace] at h
    | some s =>
      by_cases hge : 400 ≤ s
      · rw [runKeepalive_status_fail url env n s hu hs hge] at h
        simp [failTrace] at h
      · rw [runKeepalive_ok url env n s hu hs (Nat.lt_of_not_le hge)] at h ⊢
        exact runLoop_wokeUp_lastLabel env url n n 1 none [] [] (by simp) l h

/-- Context clicked by the first attempt of the C10 witness run. -/
def ctxFrameOne : Ctx := ⟨"frame one", true, true, false⟩

/-- Context clicked by the second attempt of the C10 witness run. -/
def ctxFrameTwo : Ctx := ⟨"frame two", true, false, true⟩

/-- Run environment where attempt 1 clicks in one frame (control still
present afterwards) and attempt 2 clicks in another frame (control then
gone), so two different labels are clicked across the run. -/
def envTwoClicks : RunEnv where
  response := some 200
  attempts := fun k =>
    if k = 1 then
      { rounds := [[ctxFrameOne]]
        ctrlGoneInTime := false
        navIdleInTime := true
        requery := .found }
    else
      { rounds := [[ctxFrameTwo]]
        ctrlGoneInTime := true
        navIdleInTime := false
        requery := .absent }

/-- C10 witness: in the two-click run, the label recorded on success is
the second (most recent) click's label. -/
theorem success_label_is_last_click_witness :
    (some ctxFrameTwo.label : Option String) =
      (((runKeepalive (some ("https://example.streamlit.app")) envTwoClicks 3).clicks.getLast?).map
        Ctx.label) :=
  success_label_is_last_click (some ("https://example.streamlit.app")) envTwoClicks 3
    (some ctxFrameTwo.label) rfl

/-- Run environment where the click is issued every attempt and neither
readiness signal ever resolves within `WAKE_READY_TIMEOUT_MS`, with the
control still present at every re-query. -/
def envReadinessTimeout : RunEnv where
  response := some 200
  attempts := fun _ =>
    { rounds := [[ctxMain]]
      ctrlGoneInTime := false
      navIdleInTime := false
      requery := .found }

/-- C1: on a run where a click is issued and neither readiness signal
resolves within the readiness timeout, the run does NOT abort
immediately with the readiness-timeout failure: it re-checks the
control, retries with both backoffs, performs all three attempts and
fails with the exhausted-attempts reason instead.  In fact no run at
all can terminate with `READINESS_FAIL_REASON`: both race arms swallow
their timeout rejections with `.catch(() => null)`, so the
`catch (readyError)` block that would call
`fail(READINESS_FAIL_REASON)` is unreachable. -/
theorem readiness_timeout_does_not_abort_run :
    runKeepalive (some ("https://example.streamlit.app")) envReadinessTimeout
        WAKE_MAX_ATTEMPTS =
      failTrace (some ("https://example.streamlit.app")) true STILL_PRESENT_FAIL_REASON none
        [ctxMain, ctxMain, ctxMain] [2000, 4000] ∧
    (∀ url env n e,
      (runKeepalive url env n).result ≠ .failed READINESS_FAIL_REASON e) := by
  constructor
  · rfl
  · intro url env n e
    cases hu : urlMissing url with
    | true =>
      rw [runKeepalive_url_missing url env n hu]
      simp [failTrace, READINESS_FAIL_REASON]
    | false =>
      cases hs : env.response with
      | none =>
        rw [runKeepalive_no_response_fail url env n hu hs]
        simp [failTrace, OUTER_FAIL_REASON, READINESS_FAIL_REASON]
      | some s =>
        by_cases hge : 400 ≤ s
        · rw [runKeepalive_status_fail url env n s hu hs hge]
          simp [failTrace, OUTER_FAIL_REASON, READINESS_FAIL_REASON]
        · rw [runKeepalive_ok url env n s hu hs (Nat.lt_of_not_le hge)]
          exact runLoop_never_readiness_fail env url n n 1 none [] [] e

/-- C8: on a run whose navigation answers HTTP 500 the browser is
launched but `browser.close()` never runs: `fail` reaches
`process.exit(1)` before the `try`/`finally` resumes, so the run
terminates with exit code 1 and the browser still open.  In general the
browser is closed exactly on the successful exits: in every run,
`browser.close()` ran iff the exit code is 0. -/
theorem browser_not_closed_on_failure :
    (runKeepalive (some ("https://example.streamlit.app")) env500
      WAKE_MAX_ATTEMPTS).browserLaunched = true ∧
    (runKeepalive (some ("https://example.streamlit.app")) env500
      WAKE_MAX_ATTEMPTS).exitCode = 1 ∧
    (runKeepalive (some ("https://example.streamlit.app")) env500
      WAKE_MAX_ATTEMPTS).browserClosed = false ∧
    (∀ url env n,
      ((runKeepalive url env n).browserClosed = true ↔
        (runKeepalive url env n).exitCode = 0)) := by
  refine ⟨rfl, rfl, rfl, ?_⟩
  intro url env n
  cases hu : urlMissing url with
  | true =>
    rw [runKeepalive_url_missing url env n hu]
    simp [failTrace]
  | false =>
    cases hs : env.response with
    | none =>
      rw [runKeepalive_no_response_fail url env n hu hs]
      simp [failTrace]
    | some s =>
      by_cases hge : 400 ≤ s
      · rw [runKeepalive_status_fail url env n s hu hs hge]
        simp [failTrace]
      · rw [runKeepalive_ok url env n s hu hs (Nat.lt_of_not_le hge)]
        exact runLoop_closed_iff_success env url n n 1 none [] []

end Keepalive
